import Mathlib

/-!
Verification of the print job management subsystem and HTTP request layer of
the sticker-dream-photo-booth repository.

The request-handling layer (`/api/generate`, `/api/generate-from-photo`,
`overlayFrame`) is embedded from the server source.  The print subsystem
itself (`print.ts`: PrinterDiscovery, ScratchFileManager, JobSubmitter,
PauseWatcher) is not among the provided sources — only its callers and its
specification are — so those components are modelled from the spec, as marked
in their doc comments.
-/

/-- Spooler-reported condition of a printer queue (spec section 3). -/
inductive PrinterState where
  | Idle
  | Processing
  | Paused
  | Disabled
  | Unknown
deriving DecidableEq, Repr

/-- A printer name together with its classified state (spec section 3). -/
structure PrinterDescriptor where
  name : String
  state : PrinterState
deriving DecidableEq, Repr

/-- Substring occurrence on character lists: `listContains pat hay` is true
iff `pat` occurs contiguously inside `hay`. -/
def listContains (pat : List Char) : List Char → Bool
  | [] => pat.isPrefixOf ([] : List Char)
  | c :: cs => pat.isPrefixOf (c :: cs) || listContains pat cs

/-- Case-insensitive substring test: lowercases the haystack (ASCII, as the
host status text is) and scans for the literal pattern. -/
def containsLC (t sub : String) : Bool :=
  listContains sub.data (t.data.map Char.toLower)

/-- Modelled from the spec: PrinterDiscovery classification (spec section 4.2,
`print.ts` not among the sources).  Scans the status text for, in order,
substrings meaning paused, then disabled, then processing, then idle
(case-insensitive); first match wins; no match gives `Unknown`. -/
def classifyStatus (status : String) : PrinterState :=
  if containsLC status "paused" then PrinterState.Paused
  else if containsLC status "disabled" then PrinterState.Disabled
  else if containsLC status "processing" then PrinterState.Processing
  else if containsLC status "idle" then PrinterState.Idle
  else PrinterState.Unknown

/-- **C5.** Any status text containing "paused" in any letter case classifies
as `Paused`, regardless of which other recognized substrings (disabled,
processing, idle) are also present; a text containing none of the four
substrings classifies as `Unknown`. -/
theorem classifyStatus_paused_precedence (s : String) :
    (containsLC s "paused" = true → classifyStatus s = PrinterState.Paused) ∧
    (containsLC s "paused" = false → containsLC s "disabled" = false →
      containsLC s "processing" = false → containsLC s "idle" = false →
      classifyStatus s = PrinterState.Unknown) := by
  constructor
  · intro h
    simp [classifyStatus, h]
  · intro h1 h2 h3 h4
    simp [classifyStatus, h1, h2, h3, h4]

/-- Concrete instance of the C5 theorem: a status mentioning PAUSED alongside
disabled and idle still classifies as `Paused`, and an unrecognized status
classifies as `Unknown`. -/
theorem classifyStatus_paused_precedence_witness :
    classifyStatus "PAUSED - was disabled, now idle" = PrinterState.Paused ∧
    classifyStatus "ready" = PrinterState.Unknown :=
  ⟨(classifyStatus_paused_precedence "PAUSED - was disabled, now idle").1 (by decide),
   (classifyStatus_paused_precedence "ready").2 (by decide) (by decide) (by decide) (by decide)⟩

/-- Error taxonomy of the print subsystem (spec section 7), plus the case of
an error thrown internally while building the submit command. -/
inductive PrintError where
  | NoPrinterAvailable
  | ExecutionError (message : String)
  | PrintSubmissionError (capturedOutput : String)
  | ScratchFileError (message : String)
  | CommandBuildError (message : String)
deriving DecidableEq, Repr

/-- A descriptor is usable when its state is not `Disabled`. -/
def usable (d : PrinterDescriptor) : Bool :=
  decide (d.state ≠ PrinterState.Disabled)

/-- Modelled from the spec: PrinterDiscovery.findFirstUsable (spec section
4.2, `print.ts` not among the sources).  Returns the first descriptor, in
spooler order, whose state is not `Disabled`; fails with `NoPrinterAvailable`
if the list is empty or all entries are `Disabled`. -/
def findFirstUsable (ds : List PrinterDescriptor) : Except PrintError PrinterDescriptor :=
  match ds.find? usable with
  | some d => Except.ok d
  | none => Except.error PrintError.NoPrinterAvailable

/-- **C2.** `findFirstUsable` returns the first descriptor in spooler order
whose state is not `Disabled` (everything before it is `Disabled`), and it
fails with `NoPrinterAvailable` exactly when the list is empty or every entry
is `Disabled`; in particular it never returns a `Disabled` descriptor. -/
theorem findFirstUsable_spec (ds : List PrinterDescriptor) :
    (∀ d, findFirstUsable ds = Except.ok d →
      d.state ≠ PrinterState.Disabled ∧
      ∃ pre post, ds = pre ++ d :: post ∧ ∀ e ∈ pre, e.state = PrinterState.Disabled) ∧
    (findFirstUsable ds = Except.error PrintError.NoPrinterAvailable ↔
      ∀ d ∈ ds, d.state = PrinterState.Disabled) := by
  induction ds with
  | nil =>
    constructor
    · intro d h
      simp [findFirstUsable, List.find?] at h
    · simp [findFirstUsable, List.find?]
  | cons a rest ih =>
    by_cases ha : a.state = PrinterState.Disabled
    · have hu : usable a = false := by simp [usable, ha]
      have hfind : List.find? usable (a :: rest) = List.find? usable rest :=
        List.find?_cons_of_neg _ (by simp [hu])
      have hstep : findFirstUsable (a :: rest) = findFirstUsable rest := by
        simp [findFirstUsable, hfind]
      constructor
      · intro d h
        rw [hstep] at h
        obtain ⟨hd, pre, post, hsplit, hpre⟩ := ih.1 d h
        refine ⟨hd, a :: pre, post, by simp [hsplit], ?_⟩
        intro e he
        rcases List.mem_cons.mp he with rfl | he2
        · exact ha
        · exact hpre e he2
      · rw [hstep, ih.2]
        constructor
        · intro hall d hd
          rcases List.mem_cons.mp hd with rfl | hd2
          · exact ha
          · exact hall d hd2
        · intro hall d hd
          exact hall d (List.mem_cons_of_mem a hd)
    · have hu : usable a = true := by simp [usable, ha]
      have hfind : List.find? usable (a :: rest) = some a :=
        List.find?_cons_of_pos _ hu
      have hstep : findFirstUsable (a :: rest) = Except.ok a := by
        simp [findFirstUsable, hfind]
      constructor
      · intro d h
        rw [hstep] at h
        cases h
        exact ⟨ha, [], rest, rfl, by intro e he; cases he⟩
      · rw [hstep]
        constructor
        · intro h
          cases h
        · intro hall
          exact absurd (hall a (List.mem_cons_self a rest)) ha

/-- Concrete instance of the C2 theorem at the spec scenario
`["Label-A: idle", "Label-B: paused"]`: the returned descriptor `Label-A`
is not `Disabled` and is the first usable one. -/
theorem findFirstUsable_spec_witness :
    ({ name := "Label-A", state := PrinterState.Idle } : PrinterDescriptor).state
        ≠ PrinterState.Disabled ∧
    ∃ pre post,
      [({ name := "Label-A", state := PrinterState.Idle } : PrinterDescriptor),
       { name := "Label-B", state := PrinterState.Paused }]
        = pre ++ { name := "Label-A", state := PrinterState.Idle } :: post ∧
      ∀ e ∈ pre, e.state = PrinterState.Disabled :=
  (findFirstUsable_spec
    [{ name := "Label-A", state := PrinterState.Idle },
     { name := "Label-B", state := PrinterState.Paused }]).1 _ rfl

/-- Splits a character list at every occurrence of the separator, keeping
empty segments; the result is one segment per line when the separator is a
newline. -/
def splitOnChar (sep : Char) : List Char → List (List Char)
  | [] => [[]]
  | c :: rest =>
    let r := splitOnChar sep rest
    if c = sep then [] :: r
    else (c :: r.headD []) :: r.tail

/-- Splits a line at its first colon: `some (name, status)` when a colon is
present, `none` when the line has no separator at all (unparsable line). -/
def splitAtColon : List Char → Option (List Char × List Char)
  | [] => none
  | c :: rest =>
    if c = ':' then some ([], rest)
    else
      match splitAtColon rest with
      | some (a, b) => some (c :: a, b)
      | none => none

/-- Modelled from the spec: PrinterDiscovery line parsing (spec sections 4.2
and 6, `print.ts` not among the sources).  Each output line carries a
destination name and a free-text status phrase separated by a colon; a line
that cannot be parsed degrades to a descriptor with state `Unknown` instead
of failing. -/
def parsePrinterLine (cs : List Char) : PrinterDescriptor :=
  match splitAtColon cs with
  | some (nameCs, statusCs) =>
    { name := String.mk nameCs, state := classifyStatus (String.mk statusCs) }
  | none => { name := String.mk cs, state := PrinterState.Unknown }

/-- Modelled from the spec: PrinterDiscovery.list over the raw spooler output
(spec section 4.2, `print.ts` not among the sources).  Total: one descriptor
per output line, parse anomalies never abort discovery. -/
def listPrinters (raw : String) : List PrinterDescriptor :=
  (splitOnChar (Char.ofNat 10) raw.data).map parsePrinterLine

/-- **C7.** Discovery never fails on malformed spooler output: for every raw
output it returns one descriptor per line, and every line without a parsable
name/status separator contributes a descriptor with state `Unknown` (rather
than aborting or propagating an error). -/
theorem listPrinters_never_fails (raw : String) :
    (listPrinters raw).length = (splitOnChar (Char.ofNat 10) raw.data).length ∧
    ∀ cs ∈ splitOnChar (Char.ofNat 10) raw.data, splitAtColon cs = none →
      parsePrinterLine cs = { name := String.mk cs, state := PrinterState.Unknown } ∧
      ({ name := String.mk cs, state := PrinterState.Unknown } : PrinterDescriptor)
        ∈ listPrinters raw := by
  refine ⟨by simp [listPrinters], ?_⟩
  intro cs hmem hnone
  have hparse : parsePrinterLine cs
      = { name := String.mk cs, state := PrinterState.Unknown } := by
    simp [parsePrinterLine, hnone]
  refine ⟨hparse, ?_⟩
  have : parsePrinterLine cs ∈ listPrinters raw :=
    List.mem_map_of_mem parsePrinterLine hmem
  rwa [hparse] at this

/-- Concrete instance of the C7 theorem: an output with a well-formed line
and a garbage line still yields a descriptor for the garbage line, with state
`Unknown`. -/
theorem listPrinters_never_fails_witness :
    parsePrinterLine "garbage".data
      = { name := String.mk "garbage".data, state := PrinterState.Unknown } ∧
    ({ name := String.mk "garbage".data, state := PrinterState.Unknown } : PrinterDescriptor)
      ∈ listPrinters "Label-A: idle\ngarbage" :=
  (listPrinters_never_fails "Label-A: idle\ngarbage").2 "garbage".data
    (by decide) (by decide)

/-- A scratch file handle: the path of the materialized temporary file
(spec section 3). -/
structure ScratchFileHandle where
  path : String
deriving DecidableEq, Repr

/-- Modelled from the spec: ScratchFileManager.release (spec section 4.3,
`print.ts` not among the sources).  The scratch directory is modelled as the
list of file paths present; `release` deletes the handle's file and is total
— it succeeds even when the file is already gone. -/
def releaseScratch (fs : List String) (h : ScratchFileHandle) : List String :=
  fs.filter (fun q => q != h.path)

/-- **C8.** `release` is idempotent-safe: releasing a handle a second time
(or when the file is already gone) succeeds and leaves the same post-state as
a single release — in particular the file is absent afterwards, and releasing
a handle whose file is not present changes nothing. -/
theorem releaseScratch_idempotent (fs : List String) (h : ScratchFileHandle) :
    releaseScratch (releaseScratch fs h) h = releaseScratch fs h ∧
    h.path ∉ releaseScratch fs h ∧
    (h.path ∉ fs → releaseScratch fs h = fs) := by
  refine ⟨?_, ?_, ?_⟩
  · simp [releaseScratch, List.filter_filter]
  · intro hmem
    rw [releaseScratch, List.mem_filter] at hmem
    simp at hmem
  · intro habs
    rw [releaseScratch]
    apply List.filter_eq_self.mpr
    intro a ha
    have : a ≠ h.path := fun heq => habs (heq ▸ ha)
    simpa using this

/-- Concrete instance of the C8 theorem: double release equals single
release, the file is absent afterwards, and releasing an absent file is a
no-op. -/
theorem releaseScratch_idempotent_witness :
    releaseScratch (releaseScratch ["a"] ⟨"b"⟩) ⟨"b"⟩ = releaseScratch ["a"] ⟨"b"⟩ ∧
    "b" ∉ releaseScratch ["a"] ⟨"b"⟩ ∧
    releaseScratch ["a"] ⟨"b"⟩ = ["a"] :=
  ⟨(releaseScratch_idempotent ["a"] ⟨"b"⟩).1,
   (releaseScratch_idempotent ["a"] ⟨"b"⟩).2.1,
   (releaseScratch_idempotent ["a"] ⟨"b"⟩).2.2 (by decide)⟩

/-- Captured output and exit status of an external command
(spec section 4.1). -/
structure ProcessResult where
  exitCode : Int
  stdout : String
  stderr : String
deriving DecidableEq, Repr

/-- Per-request print job options (spec section 3). -/
structure PrintJobOptions where
  copies : Nat := 1
  mediaSize : Option String := none
  grayscale : Option Bool := none
  fitToPage : Option Bool := none
  extra : List (String × String) := []
deriving DecidableEq, Repr

/-- Successful submission record (spec section 3): printer name and
submission timestamp. -/
structure PrintJobResult where
  printerName : String
  submittedAt : Nat
deriving DecidableEq, Repr

/-- The source handed to `submit`: an in-memory byte buffer or an existing
file path (spec section 4.4). -/
inductive SubmitSource where
  | bytes (content : List Nat)
  | existingPath (p : String)
deriving DecidableEq, Repr

/-- The external world of one `submit` call: the discovery snapshot, the
fresh scratch path the ScratchFileManager would pick, whether an error is
thrown while building the command, the outcome of launching the spooler
command (`Except.error` = could not be launched), and the clock. -/
structure SubmitEnv where
  descriptors : List PrinterDescriptor
  freshPath : String
  buildErr : Option String
  execOutcome : Except String ProcessResult
  now : Nat

/-- Modelled from the spec: the tail of JobSubmitter.submit after a printer
has been resolved (spec section 4.4, `print.ts` not among the sources).  An
error thrown while building the command propagates as a failure; otherwise
the spooler command runs: launch failure gives `ExecutionError`, exit code 0
gives a `PrintJobResult`, a nonzero exit gives `PrintSubmissionError`
carrying the captured stderr/stdout. -/
def submitCore (env : SubmitEnv) (printer : PrinterDescriptor) :
    Except PrintError PrintJobResult :=
  match env.buildErr with
  | some msg => Except.error (PrintError.CommandBuildError msg)
  | none =>
    match env.execOutcome with
    | Except.error msg => Except.error (PrintError.ExecutionError msg)
    | Except.ok r =>
      if r.exitCode = 0 then
        Except.ok { printerName := printer.name, submittedAt := env.now }
      else
        Except.error (PrintError.PrintSubmissionError (r.stderr ++ r.stdout))

/-- Outcome of one `submit` call: the scratch directory afterwards, the
scratch paths the call created, and the result handed to the caller. -/
structure SubmitOutcome where
  finalFiles : List String
  created : List String
  result : Except PrintError PrintJobResult
deriving Repr

/-- Modelled from the spec: JobSubmitter.submit (spec section 4.4,
`print.ts` not among the sources).  Resolves a target via `findFirstUsable`
(propagating `NoPrinterAvailable` unchanged, before any file is created); a
byte-buffer source is materialized to exactly one fresh scratch file, an
existing path is used directly; the scratch file created for the call is
released before the call returns on every outcome. -/
def submit (env : SubmitEnv) (fs : List String) (src : SubmitSource)
    (opts : PrintJobOptions) : SubmitOutcome :=
  match findFirstUsable env.descriptors with
  | Except.error e => { finalFiles := fs, created := [], result := Except.error e }
  | Except.ok printer =>
    match src with
    | SubmitSource.existingPath _ =>
      { finalFiles := fs, created := [], result := submitCore env printer }
    | SubmitSource.bytes _ =>
      let materialized := env.freshPath :: fs
      let afterRelease := releaseScratch materialized ⟨env.freshPath⟩
      { finalFiles := afterRelease
        created := [env.freshPath]
        result := submitCore env printer }

/-- **C1.** For every byte-buffer submission whose fresh scratch path is new
(the ScratchFileManager guarantees uniqueness), the scratch directory after
the call equals the directory before it — on every outcome — and whenever
the call proceeds past printer resolution it creates exactly one scratch
file, which is therefore released before the call returns. -/
theorem submit_scratch_frame (env : SubmitEnv) (fs : List String)
    (content : List Nat) (opts : PrintJobOptions)
    (hfresh : env.freshPath ∉ fs) :
    (submit env fs (SubmitSource.bytes content) opts).finalFiles = fs ∧
    (∀ p, findFirstUsable env.descriptors = Except.ok p →
      (submit env fs (SubmitSource.bytes content) opts).created = [env.freshPath]) := by
  have hrel : releaseScratch (env.freshPath :: fs) ⟨env.freshPath⟩ = fs := by
    rw [releaseScratch, List.filter_cons]
    simp only [bne_self_eq_false, Bool.false_eq_true, if_neg, ite_false]
    exact (releaseScratch_idempotent fs ⟨env.freshPath⟩).2.2 hfresh
  constructor
  · cases hfind : findFirstUsable env.descriptors with
    | error e => simp [submit, hfind]
    | ok printer => simp [submit, hfind, hrel]
  · intro p hfind
    simp [submit, hfind]

/-- Concrete instance of the C1 theorem: a byte-buffer submission against an
idle printer, whose spooler command exits nonzero, leaves the scratch
directory unchanged and created exactly its one fresh scratch file. -/
theorem submit_scratch_frame_witness :
    (submit
      { descriptors := [{ name := "Label-A", state := PrinterState.Idle }]
        freshPath := "/tmp/print-1.png"
        buildErr := none
        execOutcome := Except.ok { exitCode := 1, stdout := "", stderr := "lp: fail" }
        now := 7 }
      ["/tmp/other.png"] (SubmitSource.bytes [0, 1]) {}).finalFiles
      = ["/tmp/other.png"] ∧
    (submit
      { descriptors := [{ name := "Label-A", state := PrinterState.Idle }]
        freshPath := "/tmp/print-1.png"
        buildErr := none
        execOutcome := Except.ok { exitCode := 1, stdout := "", stderr := "lp: fail" }
        now := 7 }
      ["/tmp/other.png"] (SubmitSource.bytes [0, 1]) {}).created
      = ["/tmp/print-1.png"] :=
  ⟨(submit_scratch_frame _ _ [0, 1] {} (by decide)).1,
   (submit_scratch_frame _ _ [0, 1] {} (by decide)).2
     { name := "Label-A", state := PrinterState.Idle } rfl⟩

/-- **C3.** Whenever a `submit` call reaches the spooler command (a printer
resolved, no build error, the command launched), exit code 0 yields a
`PrintJobResult` carrying the resolved printer's name and the submission
timestamp, and any nonzero exit yields `PrintSubmissionError` carrying the
captured stderr/stdout; conversely a `PrintJobResult` is returned only on a
zero exit status. -/
theorem submit_exit_code_interpretation :
    (∀ (env : SubmitEnv) (fs : List String) (src : SubmitSource)
        (opts : PrintJobOptions) (printer : PrinterDescriptor) (r : ProcessResult),
      findFirstUsable env.descriptors = Except.ok printer →
      env.buildErr = none →
      env.execOutcome = Except.ok r →
      ((r.exitCode = 0 →
        (submit env fs src opts).result
          = Except.ok { printerName := printer.name, submittedAt := env.now }) ∧
       (r.exitCode ≠ 0 →
        (submit env fs src opts).result
          = Except.error (PrintError.PrintSubmissionError (r.stderr ++ r.stdout))))) ∧
    (∀ (env : SubmitEnv) (fs : List String) (src : SubmitSource)
        (opts : PrintJobOptions) (res : PrintJobResult),
      (submit env fs src opts).result = Except.ok res →
      ∃ printer r, findFirstUsable env.descriptors = Except.ok printer ∧
        env.buildErr = none ∧ env.execOutcome = Except.ok r ∧ r.exitCode = 0 ∧
        res = { printerName := printer.name, submittedAt := env.now }) := by
  constructor
  · intro env fs src opts printer r hfind hbuild hexec
    have hres : (submit env fs src opts).result = submitCore env printer := by
      cases src with
      | bytes content => simp [submit, hfind]
      | existingPath p => simp [submit, hfind]
    rw [hres]
    constructor
    · intro h0
      simp [submitCore, hbuild, hexec, h0]
    · intro hne
      simp only [submitCore, hbuild, hexec]
      rw [if_neg hne]
  · intro env fs src opts res h
    cases hfind : findFirstUsable env.descriptors with
    | error e =>
      cases src with
      | bytes content => simp [submit, hfind] at h
      | existingPath p => simp [submit, hfind] at h
    | ok printer =>
      have hres : (submit env fs src opts).result = submitCore env printer := by
        cases src with
        | bytes content => simp [submit, hfind]
        | existingPath p => simp [submit, hfind]
      rw [hres] at h
      cases hbuild : env.buildErr with
      | some msg => simp [submitCore, hbuild] at h
      | none =>
        cases hexec : env.execOutcome with
        | error msg => simp [submitCore, hbuild, hexec] at h
        | ok r =>
          by_cases h0 : r.exitCode = 0
          · refine ⟨printer, r, rfl, rfl, rfl, h0, ?_⟩
            simp [submitCore, hbuild, hexec, h0] at h
            exact h.symm
          · simp only [submitCore, hbuild, hexec] at h
            rw [if_neg h0] at h
            cases h

/-- Submission environment whose spooler command exits 0 (used by the C3
witness). -/
def demoEnvZero : SubmitEnv :=
  { descriptors := [{ name := "Label-A", state := PrinterState.Idle }]
    freshPath := "/tmp/print-2.png"
    buildErr := none
    execOutcome := Except.ok { exitCode := 0, stdout := "request id 13", stderr := "" }
    now := 5 }

/-- Submission environment whose spooler command exits 1 (used by the C3
witness). -/
def demoEnvFail : SubmitEnv :=
  { descriptors := [{ name := "Label-A", state := PrinterState.Idle }]
    freshPath := "/tmp/print-3.png"
    buildErr := none
    execOutcome := Except.ok { exitCode := 1, stdout := "", stderr := "no media" }
    now := 6 }

/-- Concrete instance of the C3 theorem: exit 0 gives the success record for
the resolved printer; exit 1 gives a `PrintSubmissionError` carrying the
captured output. -/
theorem submit_exit_code_interpretation_witness :
    (submit demoEnvZero [] (SubmitSource.existingPath "/a.png") {}).result
      = Except.ok { printerName := "Label-A", submittedAt := 5 } ∧
    (submit demoEnvFail [] (SubmitSource.existingPath "/a.png") {}).result
      = Except.error (PrintError.PrintSubmissionError ("no media" ++ "")) :=
  ⟨(submit_exit_code_interpretation.1 demoEnvZero [] (SubmitSource.existingPath "/a.png") {}
      { name := "Label-A", state := PrinterState.Idle }
      { exitCode := 0, stdout := "request id 13", stderr := "" }
      rfl rfl rfl).1 rfl,
   (submit_exit_code_interpretation.1 demoEnvFail [] (SubmitSource.existingPath "/a.png") {}
      { name := "Label-A", state := PrinterState.Idle }
      { exitCode := 1, stdout := "", stderr := "no media" }
      rfl rfl rfl).2 (by decide)⟩

/-- Outcome of one resume attempt of the pause watcher: the resume command
either threw an error or exited with a code. -/
inductive ResumeOutcome where
  | thrown (message : String)
  | exited (code : Int)
deriving DecidableEq, Repr

/-- Modelled from the spec: one PauseWatcher tick (spec section 4.5,
`print.ts` not among the sources).  Walks the discovery snapshot; for each
descriptor currently `Paused` it issues exactly one resume command and
records the attempt; a failed attempt (thrown error, or nonzero exit) is
merely recorded and the walk continues with the remaining descriptors. -/
def watcherTick (resume : String → ResumeOutcome) :
    List PrinterDescriptor → List (String × ResumeOutcome)
  | [] => []
  | d :: rest =>
    if d.state = PrinterState.Paused then
      (d.name, resume d.name) :: watcherTick resume rest
    else
      watcherTick resume rest

/-- Modelled from the spec: the PauseWatcher loop across successive ticks
(spec section 4.5).  Tick `i` runs on the `i`-th discovery snapshot with that
tick's resume behaviour, unconditionally — failures in earlier ticks never
stop later ticks. -/
def runWatcher (resume : Nat → String → ResumeOutcome) :
    Nat → List (List PrinterDescriptor) → List (List (String × ResumeOutcome))
  | _, [] => []
  | i, ds :: rest => watcherTick (resume i) ds :: runWatcher resume (i + 1) rest

/-- The resume commands a tick issues are exactly the names of the paused
descriptors of its snapshot, in snapshot order. -/
theorem watcherTick_names (resume : String → ResumeOutcome)
    (ds : List PrinterDescriptor) :
    (watcherTick resume ds).map Prod.fst
      = (ds.filter (fun d => decide (d.state = PrinterState.Paused))).map
          PrinterDescriptor.name := by
  induction ds with
  | nil => rfl
  | cons a rest ih =>
    by_cases ha : a.state = PrinterState.Paused
    · simp [watcherTick, ha, List.filter_cons, ih]
    · simp [watcherTick, ha, List.filter_cons, ih]

/-- Every scheduled tick of the watcher loop executes, on its own snapshot
with its own resume behaviour. -/
theorem runWatcher_ticks (ticks : Nat → String → ResumeOutcome) :
    ∀ (snaps : List (List PrinterDescriptor)) (i : Nat),
    (runWatcher ticks i snaps).length = snaps.length ∧
    ∀ j : Fin snaps.length, ∃ hj : j.val < (runWatcher ticks i snaps).length,
      (runWatcher ticks i snaps).get ⟨j.val, hj⟩
        = watcherTick (ticks (i + j.val)) (snaps.get j) := by
  intro snaps
  induction snaps with
  | nil =>
    intro i
    exact ⟨rfl, fun j => absurd j.isLt (by simp)⟩
  | cons ds rest ih =>
    intro i
    refine ⟨by simp [runWatcher, (ih (i + 1)).1], ?_⟩
    intro j
    match j with
    | ⟨0, h0⟩ =>
      refine ⟨by simp [runWatcher, (ih (i + 1)).1], ?_⟩
      simp [runWatcher]
    | ⟨k + 1, hk⟩ =>
      obtain ⟨hj, heq⟩ := (ih (i + 1)).2 ⟨k, Nat.lt_of_succ_lt_succ hk⟩
      refine ⟨by simpa [runWatcher] using Nat.succ_lt_succ hj, ?_⟩
      have harith : i + (k + 1) = (i + 1) + k := by omega
      simp only [runWatcher, List.get]
      rw [harith]
      exact heq

/-- **C6.** A watcher tick issues exactly one resume command per descriptor
`Paused` in its snapshot (in snapshot order); which descriptors receive an
attempt does not depend on the resume outcomes, so a failed attempt never
prevents the attempts for the remaining paused descriptors; and every
scheduled tick of the loop executes on its own snapshot, so failures never
stop future ticks. -/
theorem watcher_attempts_independent
    (resume resume2 : String → ResumeOutcome) (ds : List PrinterDescriptor)
    (ticks : Nat → String → ResumeOutcome)
    (snaps : List (List PrinterDescriptor)) :
    (watcherTick resume ds).map Prod.fst
      = (ds.filter (fun d => decide (d.state = PrinterState.Paused))).map
          PrinterDescriptor.name ∧
    (watcherTick resume2 ds).map Prod.fst = (watcherTick resume ds).map Prod.fst ∧
    (runWatcher ticks 0 snaps).length = snaps.length ∧
    ∀ j : Fin snaps.length, ∃ hj : j.val < (runWatcher ticks 0 snaps).length,
      (runWatcher ticks 0 snaps).get ⟨j.val, hj⟩
        = watcherTick (ticks j.val) (snaps.get j) := by
  refine ⟨watcherTick_names resume ds,
    (watcherTick_names resume2 ds).trans (watcherTick_names resume ds).symm,
    (runWatcher_ticks ticks snaps 0).1, ?_⟩
  intro j
  obtain ⟨hj, heq⟩ := (runWatcher_ticks ticks snaps 0).2 j
  refine ⟨hj, ?_⟩
  simpa using heq

/-- JavaScript truthiness of an optional number: `undefined` and `0` are
falsy. -/
def jsFalsyNum : Option Nat → Bool
  | none => true
  | some n => n == 0

/-- JavaScript truthiness of an optional string: `undefined`/`null` and the
empty string are falsy. -/
def jsFalsyStr : Option String → Bool
  | none => true
  | some s => s == ""

/-- A JavaScript `value || dflt` on an optional string: the default replaces
an absent or empty value. -/
def jsOrDefault (v : Option String) (dflt : String) : String :=
  match v with
  | none => dflt
  | some s => if s == "" then dflt else s

/-- The dimensions sharp reports for an image buffer (`metadata()`), each
possibly absent. -/
structure SharpMetadata where
  width : Option Nat
  height : Option Nat
deriving DecidableEq, Repr

/-- Embeds `overlayFrame` from the server source: reads the generated
image's dimensions; if width or height is unavailable (JS-falsy) it returns
the original buffer unchanged, otherwise it composites the background frame
(resized to width times height) over the image. -/
def overlayFrame (meta : SharpMetadata)
    (composite : List Nat → Nat → Nat → List Nat)
    (imageBuffer : List Nat) : List Nat :=
  if jsFalsyNum meta.width || jsFalsyNum meta.height then
    imageBuffer
  else
    composite imageBuffer (meta.width.getD 0) (meta.height.getD 0)

/-- **C10.** `overlayFrame` never fails when the image's dimensions cannot be
determined: if the width or the height is missing from the metadata, it
returns the input buffer unchanged instead of raising an error or
compositing the frame. -/
theorem overlayFrame_missing_dims (meta : SharpMetadata)
    (composite : List Nat → Nat → Nat → List Nat) (imageBuffer : List Nat)
    (h : meta.width = none ∨ meta.height = none) :
    overlayFrame meta composite imageBuffer = imageBuffer := by
  rcases h with hw | hh
  · simp [overlayFrame, jsFalsyNum, hw]
  · have : jsFalsyNum meta.height = true := by simp [jsFalsyNum, hh]
    simp [overlayFrame, this]

/-- Concrete instance of the C10 theorem: metadata without a width leaves the
buffer untouched even though a compositor is available. -/
theorem overlayFrame_missing_dims_witness :
    overlayFrame { width := none, height := some 600 }
      (fun b w h => b ++ [w, h]) [9, 9, 9] = [9, 9, 9] :=
  overlayFrame_missing_dims { width := none, height := some 600 }
    (fun b w h => b ++ [w, h]) [9, 9, 9] (Or.inl rfl)

/-- Checks that a string starts with the given leading segment (the mime
type check of the server). -/
def strStartsWith (s lead : String) : Bool :=
  lead.data.isPrefixOf s.data

/-- What a request handler sends back: an image body with a status and
content type, or a JSON error with a status. -/
inductive ApiResponse where
  | imageResponse (body : List Nat) (status : Nat) (contentType : String)
  | jsonError (message : String) (status : Nat)
deriving DecidableEq, Repr

/-- Observable outcome of one request: the response, whether `printToUSB`
was invoked, and the line logged by the print block (if reached). -/
structure HandlerResult where
  response : ApiResponse
  printAttempted : Bool
  printLog : Option String
deriving DecidableEq, Repr

/-- The console line of the server's print block: success logs the printer
name, a caught print error logs a warning — and in either case the handler
continues. -/
def printLogLine : Except String PrintJobResult → String
  | Except.ok r => "Print job submitted to " ++ r.printerName
  | Except.error e => "Printing failed: " ++ e

/-- Embeds `app.post('/api/generate')` from the server source.  The request
body's `enablePrinter` destructures with default `true` when absent; a falsy
prompt is a 400; a thrown generation error is a 500 with its message; a null
generation buffer is a 500; otherwise the print block runs (its failure is
caught and only logged) and the generated image is returned with status
200. -/
def apiGenerate (genOutcome : Except String (Option (List Nat)))
    (printOutcome : Except String PrintJobResult)
    (prompt : Option String) (enablePrinterField : Option Bool) : HandlerResult :=
  let enablePrinter := enablePrinterField.getD true
  if jsFalsyStr prompt then
    { response := ApiResponse.jsonError "Prompt is required" 400
      printAttempted := false, printLog := none }
  else
    match genOutcome with
    | Except.error e =>
      { response := ApiResponse.jsonError e 500
        printAttempted := false, printLog := none }
    | Except.ok none =>
      { response := ApiResponse.jsonError "Failed to generate image" 500
        printAttempted := false, printLog := none }
    | Except.ok (some buffer) =>
      if enablePrinter then
        { response := ApiResponse.imageResponse buffer 200 "image/png"
          printAttempted := true
          printLog := some (printLogLine printOutcome) }
      else
        { response := ApiResponse.imageResponse buffer 200 "image/png"
          printAttempted := false
          printLog := some "Printing disabled by user - skipping print job" }

/-- A request body for /api/generate-from-photo: a multipart form (image
file bytes, the file's reported type, scene field, enablePrinter field — the
last two absent when omitted) or a JSON body (base64 image string, mime
type, scene, boolean enablePrinter). -/
inductive PhotoRequestBody where
  | multipart (image : Option (List Nat)) (fileType : String)
      (scene : Option String) (enable : Option String)
  | jsonBody (image : Option String) (mime : Option String)
      (scene : Option String) (enable : Option Bool)
deriving DecidableEq, Repr

/-- The scene the server falls back to when the request omits one. -/
def defaultScene : String :=
  "dancing on a disco floor with disco ball and dance floor tiles"

/-- Embeds the body-parsing prelude of `app.post('/api/generate-from-photo')`
from the server source: yields the mime type, scene and enablePrinter flag,
or the early 400 error response.  Multipart reads `enablePrinter` as the
string comparison `=== 'true'` (absent means `false`); JSON reads it as the
strict comparison `=== true` (absent means `false`). -/
def parsePhotoBody : PhotoRequestBody → Except (String × Nat) (String × String × Bool)
  | PhotoRequestBody.multipart image fileType scene enable =>
    match image with
    | none => Except.error ("Image file is required", 400)
    | some _ =>
      Except.ok
        (if fileType == "" then "image/jpeg" else fileType,
         jsOrDefault scene defaultScene,
         enable == some "true")
  | PhotoRequestBody.jsonBody image mime scene enable =>
    if jsFalsyStr image || jsFalsyStr mime then
      Except.error ("Image data and mimeType are required", 400)
    else
      Except.ok (mime.getD "", jsOrDefault scene defaultScene, enable == some true)

/-- Embeds `app.post('/api/generate-from-photo')` from the server source:
parse the body, validate the mime type, convert the photo (thrown error =
500 with its message, null buffer = 500), overlay the frame, run the print
block (its failure caught and only logged), return the framed image with
status 200. -/
def apiGenerateFromPhoto (convertOutcome : Except String (Option (List Nat)))
    (meta : SharpMetadata) (composite : List Nat → Nat → Nat → List Nat)
    (printOutcome : Except String PrintJobResult)
    (body : PhotoRequestBody) : HandlerResult :=
  match parsePhotoBody body with
  | Except.error (msg, status) =>
    { response := ApiResponse.jsonError msg status
      printAttempted := false, printLog := none }
  | Except.ok (mimeType, _scene, enablePrinter) =>
    if !(strStartsWith mimeType "image/") then
      { response := ApiResponse.jsonError "Invalid image format" 400
        printAttempted := false, printLog := none }
    else
      match convertOutcome with
      | Except.error e =>
        { response := ApiResponse.jsonError e 500
          printAttempted := false, printLog := none }
      | Except.ok none =>
        { response := ApiResponse.jsonError "Failed to convert photo to coloring page" 500
          printAttempted := false, printLog := none }
      | Except.ok (some buffer0) =>
        let buffer := overlayFrame meta composite buffer0
        if enablePrinter then
          { response := ApiResponse.imageResponse buffer 200 "image/png"
            printAttempted := true
            printLog := some (printLogLine printOutcome) }
        else
          { response := ApiResponse.imageResponse buffer 200 "image/png"
            printAttempted := false
            printLog := some "Printing disabled by user - skipping print job" }


/-- **C4.** Print failures are fail-open at the request layer: on both
endpoints, when the print call fails (`printToUSB` throwing or returning an
error, modelled as `Except.error`), the handler still returns the generated
image with status 200, and the buffer it returns is exactly the generated
one — never mutated or discarded; the failure is only logged. -/
theorem print_failure_fail_open
    (buffer : List Nat) (e : String) (prompt : String) (hp : prompt ≠ "")
    (ef : Option Bool) (he : ef.getD true = true)
    (meta : SharpMetadata) (composite : List Nat → Nat → Nat → List Nat)
    (body : PhotoRequestBody) (mt sc : String)
    (hparse : parsePhotoBody body = Except.ok (mt, sc, true))
    (hmime : strStartsWith mt "image/" = true) :
    (apiGenerate (Except.ok (some buffer)) (Except.error e)
        (some prompt) ef).response
      = ApiResponse.imageResponse buffer 200 "image/png" ∧
    (apiGenerate (Except.ok (some buffer)) (Except.error e)
        (some prompt) ef).printAttempted = true ∧
    (apiGenerateFromPhoto (Except.ok (some buffer)) meta composite
        (Except.error e) body).response
      = ApiResponse.imageResponse (overlayFrame meta composite buffer)
          200 "image/png" ∧
    (apiGenerateFromPhoto (Except.ok (some buffer)) meta composite
        (Except.error e) body).printAttempted = true := by
  have hfalsy : jsFalsyStr (some prompt) = false := by
    simp [jsFalsyStr, hp]
  have hgen : apiGenerate (Except.ok (some buffer)) (Except.error e)
      (some prompt) ef
      = { response := ApiResponse.imageResponse buffer 200 "image/png"
          printAttempted := true
          printLog := some (printLogLine (Except.error e)) } := by
    simp [apiGenerate, hfalsy, he]
  have hphoto : apiGenerateFromPhoto (Except.ok (some buffer)) meta composite
      (Except.error e) body
      = { response := ApiResponse.imageResponse
            (overlayFrame meta composite buffer) 200 "image/png"
          printAttempted := true
          printLog := some (printLogLine (Except.error e)) } := by
    simp [apiGenerateFromPhoto, hparse, hmime]
  exact ⟨by rw [hgen], by rw [hgen], by rw [hphoto], by rw [hphoto]⟩

/-- Concrete instance of the C4 theorem: with the spooler failing, both
endpoints still return their generated image with status 200 and record the
print attempt. -/
theorem print_failure_fail_open_witness :
    (apiGenerate (Except.ok (some [1, 2, 3])) (Except.error "spooler offline")
        (some "a friendly dragon") none).response
      = ApiResponse.imageResponse [1, 2, 3] 200 "image/png" ∧
    (apiGenerate (Except.ok (some [1, 2, 3])) (Except.error "spooler offline")
        (some "a friendly dragon") none).printAttempted = true ∧
    (apiGenerateFromPhoto (Except.ok (some [1, 2, 3]))
        { width := some 4, height := some 6 } (fun b w h => b ++ [w, h])
        (Except.error "spooler offline")
        (PhotoRequestBody.multipart (some [7]) "image/png" none
          (some "true"))).response
      = ApiResponse.imageResponse
          (overlayFrame { width := some 4, height := some 6 }
            (fun b w h => b ++ [w, h]) [1, 2, 3]) 200 "image/png" ∧
    (apiGenerateFromPhoto (Except.ok (some [1, 2, 3]))
        { width := some 4, height := some 6 } (fun b w h => b ++ [w, h])
        (Except.error "spooler offline")
        (PhotoRequestBody.multipart (some [7]) "image/png" none
          (some "true"))).printAttempted = true :=
  print_failure_fail_open [1, 2, 3] "spooler offline" "a friendly dragon"
    (by decide) none rfl { width := some 4, height := some 6 }
    (fun b w h => b ++ [w, h])
    (PhotoRequestBody.multipart (some [7]) "image/png" none (some "true"))
    "image/png" defaultScene rfl rfl

/-- Whenever the parsed body's enablePrinter flag is false, the photo
endpoint never invokes the print call, whatever else happens. -/
theorem photoHandler_no_attempt_of_flag_false
    (conv : Except String (Option (List Nat))) (meta : SharpMetadata)
    (composite : List Nat → Nat → Nat → List Nat)
    (po : Except String PrintJobResult) (body : PhotoRequestBody)
    (h : ∀ out, parsePhotoBody body = Except.ok out → out.2.2 = false) :
    (apiGenerateFromPhoto conv meta composite po body).printAttempted = false := by
  unfold apiGenerateFromPhoto
  cases hres : parsePhotoBody body with
  | error p =>
    cases p
    rfl
  | ok out =>
    obtain ⟨mt, sc, b⟩ := out
    have hb : b = false := h (mt, sc, b) hres
    subst hb
    cases hss : strStartsWith mt "image/" with
    | false => simp [hss]
    | true =>
      cases conv with
      | error e2 => simp [hss]
      | ok ob =>
        cases ob with
        | none => simp [hss]
        | some b0 => simp [hss]

/-- **C9.** The two endpoints default `enablePrinter` oppositely when the
request omits it: `/api/generate` defaults it to `true` (a successful
generation attempts a print), while `/api/generate-from-photo` never
attempts a print when the field is omitted — for multipart and JSON bodies
alike, whatever else the request and environment contain. -/
theorem enablePrinter_default_asymmetry
    (buffer : List Nat) (po : Except String PrintJobResult)
    (prompt : String) (hp : prompt ≠ "")
    (conv : Except String (Option (List Nat)))
    (meta : SharpMetadata) (composite : List Nat → Nat → Nat → List Nat)
    (img : Option (List Nat)) (ft : String) (scene : Option String)
    (imgS mimeS sceneJ : Option String) :
    (apiGenerate (Except.ok (some buffer)) po (some prompt) none).printAttempted
      = true ∧
    (apiGenerateFromPhoto conv meta composite po
        (PhotoRequestBody.multipart img ft scene none)).printAttempted = false ∧
    (apiGenerateFromPhoto conv meta composite po
        (PhotoRequestBody.jsonBody imgS mimeS sceneJ none)).printAttempted
      = false := by
  have hfalsy : jsFalsyStr (some prompt) = false := by
    simp [jsFalsyStr, hp]
  refine ⟨by simp [apiGenerate, hfalsy], ?_, ?_⟩
  · apply photoHandler_no_attempt_of_flag_false
    intro out hout
    cases img with
    | none => simp [parsePhotoBody] at hout
    | some bs =>
      simp only [parsePhotoBody] at hout
      cases hout
      rfl
  · apply photoHandler_no_attempt_of_flag_false
    intro out hout
    simp only [parsePhotoBody] at hout
    by_cases hfj : (jsFalsyStr imgS || jsFalsyStr mimeS) = true
    · rw [if_pos hfj] at hout
      cases hout
    · rw [if_neg hfj] at hout
      cases hout
      rfl

/-- Concrete instance of the C9 theorem: identical omission of the
`enablePrinter` field attempts a print on `/api/generate` and none on
`/api/generate-from-photo`, in both body formats. -/
theorem enablePrinter_default_asymmetry_witness :
    (apiGenerate (Except.ok (some [5])) (Except.error "down")
        (some "hello") none).printAttempted = true ∧
    (apiGenerateFromPhoto (Except.ok (some [5]))
        { width := some 4, height := some 6 } (fun b w h => b ++ [w, h])
        (Except.error "down")
        (PhotoRequestBody.multipart (some [7]) "image/png" none
          none)).printAttempted = false ∧
    (apiGenerateFromPhoto (Except.ok (some [5]))
        { width := some 4, height := some 6 } (fun b w h => b ++ [w, h])
        (Except.error "down")
        (PhotoRequestBody.jsonBody (some "QUJD") (some "image/png") none
          none)).printAttempted = false :=
  enablePrinter_default_asymmetry [5] (Except.error "down") "hello" (by decide)
    (Except.ok (some [5])) { width := some 4, height := some 6 }
    (fun b w h => b ++ [w, h]) (some [7]) "image/png" none
    (some "QUJD") (some "image/png") none
